import Mathlib

/-
Verification of the request/response schema layer of a RAG question-answering
HTTP service (src/app/api/schemas.py) and of the query pipeline the spec
defines around it.

Modelling conventions:
- A pydantic model is embedded as two Lean structures: an `...Input` structure
  whose fields are `Option`-typed raw values (a missing field and an explicit
  JSON null both map to `none`, which matches pydantic for fields whose type
  admits `None`), and the validated structure, together with a `validate`
  function `Input -> Except (List String) Output` that mirrors the field
  constraints declared in the source, collecting one message per failing field.
- Python `float` is embedded as `Rat`: the schema layer only compares scores
  against the rational constants 0.0 and 1.0, so the ordered-field structure is
  all that is exercised.
- Python `str` is `String`, `bool` is `Bool`, `dict` is an association list
  `List (String × String)`.
-/

namespace RagQa

/-- Generic acceptance test for a validation result. -/
def isAccepted {α : Type} : Except (List String) α → Bool
  | .ok _ => true
  | .error _ => false

-- ============== Health schemas ==============

/-- Raw input for `ReadinessResponse`: all three fields may be missing. -/
structure ReadinessInput where
  status : Option String
  qdrant_connected : Option Bool
  collection_info : Option (List (String × String))
  deriving DecidableEq, Repr

/-- `ReadinessResponse` from schemas.py: `status`, `qdrant_connected` and
`collection_info` are all required (declared with `Field(...)`, no default). -/
structure ReadinessResponse where
  status : String
  qdrant_connected : Bool
  collection_info : List (String × String)
  deriving DecidableEq, Repr

/-- Validation of `ReadinessResponse`: every field is required. -/
def ReadinessResponse.validate (inp : ReadinessInput) :
    Except (List String) ReadinessResponse :=
  match inp.status, inp.qdrant_connected, inp.collection_info with
  | some s, some q, some c => .ok ⟨s, q, c⟩
  | _, _, _ => .error
      ((if inp.status.isNone then ["status: field required"] else []) ++
       (if inp.qdrant_connected.isNone then ["qdrant_connected: field required"] else []) ++
       (if inp.collection_info.isNone then ["collection_info: field required"] else []))

-- ============== Query schemas ==============

/-- Raw input for `QueryRequest`. -/
structure QueryRequestInput where
  question : Option String
  include_sources : Option Bool
  enable_evaluation : Option Bool
  deriving DecidableEq, Repr

/-- `QueryRequest` from schemas.py: `question` required with
`min_length=1, max_length=1000`; `include_sources` defaults to `True`;
`enable_evaluation` defaults to `False`. -/
structure QueryRequest where
  question : String
  include_sources : Bool
  enable_evaluation : Bool
  deriving DecidableEq, Repr

/-- Validation of `QueryRequest`, mirroring the pydantic field constraints. -/
def QueryRequest.validate (inp : QueryRequestInput) :
    Except (List String) QueryRequest :=
  match inp.question with
  | none => .error ["question: field required"]
  | some s =>
    if s.length < 1 then
      .error ["question: string should have at least 1 character"]
    else if 1000 < s.length then
      .error ["question: string should have at most 1000 characters"]
    else
      .ok ⟨s, inp.include_sources.getD true, inp.enable_evaluation.getD false⟩

/-- `SourceDocument` from schemas.py: `content` and `metadata` required. -/
structure SourceDocument where
  content : String
  metadata : List (String × String)
  deriving DecidableEq, Repr

/-- A present optional score lies in the closed interval [0, 1]. -/
def unitIntervalOk : Option Rat → Bool
  | none => true
  | some x => 0 ≤ x && x ≤ 1

/-- Raw input for `EvaluationScores`: all four fields default to `None`. -/
structure EvaluationScoresInput where
  faithfulness : Option Rat
  answer_relevancy : Option Rat
  evaluation_time_ms : Option Rat
  error : Option String
  deriving DecidableEq, Repr

/-- `EvaluationScores` from schemas.py: `faithfulness` and `answer_relevancy`
are optional with `ge=0.0, le=1.0`; `evaluation_time_ms` and `error` are
optional and unconstrained; every field defaults to `None`. -/
structure EvaluationScores where
  faithfulness : Option Rat
  answer_relevancy : Option Rat
  evaluation_time_ms : Option Rat
  error : Option String
  deriving DecidableEq, Repr

/-- Validation of `EvaluationScores`: the two score fields, when present, must
lie in [0, 1]; the other two fields are passed through unchanged. -/
def EvaluationScores.validate (inp : EvaluationScoresInput) :
    Except (List String) EvaluationScores :=
  let errs :=
    (if unitIntervalOk inp.faithfulness then []
     else ["faithfulness: input should be less than or equal to 1 and greater than or equal to 0"]) ++
    (if unitIntervalOk inp.answer_relevancy then []
     else ["answer_relevancy: input should be less than or equal to 1 and greater than or equal to 0"])
  if errs.isEmpty then
    .ok ⟨inp.faithfulness, inp.answer_relevancy, inp.evaluation_time_ms, inp.error⟩
  else
    .error errs

/-- Raw input for `QueryResponse`. -/
structure QueryResponseInput where
  question : Option String
  answer : Option String
  sources : Option (List SourceDocument)
  processing_time_ms : Option Rat
  evaluation : Option EvaluationScoresInput
  deriving DecidableEq, Repr

/-- `QueryResponse` from schemas.py: `question`, `answer` and
`processing_time_ms` required (the latter with no range constraint);
`sources` and `evaluation` optional, defaulting to `None`. -/
structure QueryResponse where
  question : String
  answer : String
  sources : Option (List SourceDocument)
  processing_time_ms : Rat
  evaluation : Option EvaluationScores
  deriving DecidableEq, Repr

/-- Validation of `QueryResponse`: requires the three mandatory fields and
recursively validates a present `evaluation` value. -/
def QueryResponse.validate (inp : QueryResponseInput) :
    Except (List String) QueryResponse :=
  match inp.question, inp.answer, inp.processing_time_ms with
  | some q, some a, some t =>
    match inp.evaluation with
    | none => .ok ⟨q, a, inp.sources, t, none⟩
    | some einp =>
      match EvaluationScores.validate einp with
      | .ok e => .ok ⟨q, a, inp.sources, t, some e⟩
      | .error es => .error (es.map (fun m => "evaluation." ++ m))
  | _, _, _ => .error
      ((if inp.question.isNone then ["question: field required"] else []) ++
       (if inp.answer.isNone then ["answer: field required"] else []) ++
       (if inp.processing_time_ms.isNone then ["processing_time_ms: field required"] else []))

-- ============== Query pipeline (spec-modelled) ==============

/-- Modelled from the spec: the Retriever error taxonomy (§4.1, §7) is not in
the visible source; `IndexUnavailable` is raised when the vector index cannot
be reached. An empty index is non-fatal and is represented by an `.ok []`
result. -/
inductive RetrieverError where
  | IndexUnavailable (msg : String)
  deriving DecidableEq, Repr

/-- The message carried by a retriever error. -/
def RetrieverError.message : RetrieverError → String
  | .IndexUnavailable m => m

/-- Modelled from the spec: the pipeline error taxonomy (§7) is not in the
visible source; a query fails with exactly one of `RetrievalFailed` or
`GenerationFailed`. -/
inductive PipelineError where
  | RetrievalFailed (msg : String)
  | GenerationFailed (msg : String)
  deriving DecidableEq, Repr

/-- Modelled from the spec: the Retriever, Generator and Evaluator components
(§2, §4) are not in the visible source; they are taken as parameters of the
pipeline. `retrieve` answers with a ranked passage list or `IndexUnavailable`;
`generate` produces an answer string or a failure message; `evaluate` produces
scores or a failure message that the pipeline must capture (§4.3). The three
duration fields stand for the wall-clock time of each step. -/
structure PipelineEnv where
  k : Nat
  retrieve : String → Nat → Except RetrieverError (List SourceDocument)
  generate : String → List SourceDocument → Except String String
  evaluate : String → String → List SourceDocument → Except String EvaluationScores
  retrieval_ms : Rat
  generation_ms : Rat
  evaluation_ms : Rat

/-- Modelled from the spec: `QueryPipeline.answer` (§4.2) is not in the visible
source. Steps: retrieve with top-k (failure aborts with `RetrievalFailed`),
generate (failure aborts with `GenerationFailed`), optionally evaluate (an
evaluator failure degrades into null scores plus a populated `error` field and
never fails the query), then assemble the result: `sources` only when
`include_sources`, `evaluation` only when `enable_evaluation`, and
`processing_time_ms` covering retrieval, generation and, when run,
evaluation. -/
def QueryPipeline.answer (env : PipelineEnv) (q : QueryRequest) :
    Except PipelineError QueryResponse :=
  match env.retrieve q.question env.k with
  | .error e => .error (.RetrievalFailed e.message)
  | .ok passages =>
    match env.generate q.question passages with
    | .error msg => .error (.GenerationFailed msg)
    | .ok ans =>
      let ev : Option EvaluationScores :=
        if q.enable_evaluation then
          some (match env.evaluate q.question ans passages with
                | .ok sc => sc
                | .error msg => ⟨none, none, none, some msg⟩)
        else none
      .ok ⟨q.question, ans,
           if q.include_sources then some passages else none,
           env.retrieval_ms + env.generation_ms +
             (if q.enable_evaluation then env.evaluation_ms else 0),
           ev⟩

-- ============== Helper lemmas ==============

/-- `unitIntervalOk` is exactly the "in [0, 1] when present" condition. -/
theorem unitIntervalOk_iff (o : Option Rat) :
    unitIntervalOk o = true ↔ ∀ x, o = some x → 0 ≤ x ∧ x ≤ 1 := by
  cases o with
  | none => simp [unitIntervalOk]
  | some a => simp [unitIntervalOk]

/-- A successful `EvaluationScores` validation passes every field through
unchanged. -/
theorem EvaluationScores.validate_ok_eq (inp : EvaluationScoresInput)
    (r : EvaluationScores) (h : EvaluationScores.validate inp = .ok r) :
    r = ⟨inp.faithfulness, inp.answer_relevancy, inp.evaluation_time_ms, inp.error⟩ := by
  unfold EvaluationScores.validate at h
  cases hf : unitIntervalOk inp.faithfulness <;> rw [hf] at h <;>
    cases ha : unitIntervalOk inp.answer_relevancy <;> rw [ha] at h <;>
    simp at h
  exact h.symm

/-- A successful `QueryResponse` validation requires the mandatory fields to
be present and passes every field through unchanged. -/
theorem QueryResponse.validate_ok_shape (inp : QueryResponseInput) (r : QueryResponse)
    (h : QueryResponse.validate inp = .ok r) :
    inp.question = some r.question ∧ inp.answer = some r.answer ∧
      inp.processing_time_ms = some r.processing_time_ms ∧ inp.sources = r.sources ∧
      (inp.evaluation = none → r.evaluation = none) := by
  obtain ⟨oq, oa, os, ot, oe⟩ := inp
  cases oq with
  | none => simp [QueryResponse.validate] at h
  | some qv =>
  cases oa with
  | none => simp [QueryResponse.validate] at h
  | some av =>
  cases ot with
  | none => simp [QueryResponse.validate] at h
  | some tv =>
  cases oe with
  | none =>
    simp only [QueryResponse.validate] at h
    cases h
    simp
  | some einp =>
    simp only [QueryResponse.validate] at h
    cases hv : EvaluationScores.validate einp <;> rw [hv] at h
    · cases h
    · cases h
      simp

-- ============== Claims ==============

/-- C1: `QueryRequest` validation accepts a present question string if and
only if its length is between 1 and 1000 characters inclusive; a missing
question is likewise rejected with a field-level validation error. -/
theorem C1_question_length_bounds (s : String) (inc ev : Option Bool) :
    (isAccepted (QueryRequest.validate ⟨some s, inc, ev⟩) = true ↔
      1 ≤ s.length ∧ s.length ≤ 1000) ∧
    QueryRequest.validate ⟨none, inc, ev⟩ = .error ["question: field required"] := by
  refine ⟨?_, rfl⟩
  unfold QueryRequest.validate
  dsimp only
  split_ifs with h1 h2 <;> simp [isAccepted] <;> omega

/-- C1 witness: a one-character question is accepted; the bound 1 ≤ length
holds at it. -/
theorem C1_question_length_bounds_witness :
    isAccepted (QueryRequest.validate ⟨some "q", none, none⟩) = true :=
  (C1_question_length_bounds "q" none none).1.mpr (by decide)

/-- C2: `EvaluationScores` validation accepts an input if and only if each of
`faithfulness` and `answer_relevancy`, when present, lies in the closed
interval [0, 1]; consequently every accepted instance satisfies the bounds. -/
theorem C2_score_bounds (inp : EvaluationScoresInput) :
    (isAccepted (EvaluationScores.validate inp) = true ↔
      ((∀ x, inp.faithfulness = some x → 0 ≤ x ∧ x ≤ 1) ∧
       (∀ x, inp.answer_relevancy = some x → 0 ≤ x ∧ x ≤ 1))) ∧
    (∀ r, EvaluationScores.validate inp = .ok r →
      ((∀ x, r.faithfulness = some x → 0 ≤ x ∧ x ≤ 1) ∧
       (∀ x, r.answer_relevancy = some x → 0 ≤ x ∧ x ≤ 1))) := by
  have hmain : isAccepted (EvaluationScores.validate inp) = true ↔
      (unitIntervalOk inp.faithfulness = true ∧
       unitIntervalOk inp.answer_relevancy = true) := by
    unfold EvaluationScores.validate
    cases hf : unitIntervalOk inp.faithfulness <;>
      cases ha : unitIntervalOk inp.answer_relevancy <;>
      simp [isAccepted]
  constructor
  · rw [hmain, unitIntervalOk_iff, unitIntervalOk_iff]
  · intro r hr
    have hacc : isAccepted (EvaluationScores.validate inp) = true := by
      rw [hr]; rfl
    have hfields := EvaluationScores.validate_ok_eq inp r hr
    have hb := hmain.mp hacc
    rw [hfields]
    exact ⟨(unitIntervalOk_iff _).mp hb.1, (unitIntervalOk_iff _).mp hb.2⟩

/-- C2 witness: the instance with faithfulness 1/2 and relevancy 1 is
accepted, applying the acceptance direction at a concrete input. -/
theorem C2_score_bounds_witness :
    isAccepted (EvaluationScores.validate ⟨some (1/2), some 1, none, none⟩) = true :=
  (C2_score_bounds ⟨some (1/2), some 1, none, none⟩).1.mpr
    ⟨fun x hx => by
        rw [Option.some_inj] at hx
        rw [← hx]; norm_num,
     fun x hx => by
        rw [Option.some_inj] at hx
        rw [← hx]; norm_num⟩

/-- C9: a `QueryRequest` built from only a question (both flags omitted) is
valid whenever the question has a valid length, and its flags default to
`include_sources = true` and `enable_evaluation = false`. -/
theorem C9_flag_defaults (s : String) (h1 : 1 ≤ s.length) (h2 : s.length ≤ 1000) :
    QueryRequest.validate ⟨some s, none, none⟩ = .ok ⟨s, true, false⟩ := by
  unfold QueryRequest.validate
  dsimp only
  split_ifs with ha hb
  · omega
  · omega
  · rfl

/-- C9 witness: applied at the question "What is RAG?". -/
theorem C9_flag_defaults_witness :
    QueryRequest.validate ⟨some "What is RAG?", none, none⟩ =
      .ok ⟨"What is RAG?", true, false⟩ :=
  C9_flag_defaults "What is RAG?" (by decide) (by decide)

/-- C10: `EvaluationScores` imposes no cross-field constraint: an input with
both scores present and in range together with a non-null error message is
accepted unchanged. -/
theorem C10_no_cross_field_constraint :
    EvaluationScores.validate ⟨some (1/2), some (3/4), none, some "ragas failed"⟩ =
      .ok ⟨some (1/2), some (3/4), none, some "ragas failed"⟩ := by
  norm_num [EvaluationScores.validate, unitIntervalOk]

/-- C3 counterexample: validation accepts a `QueryResponse` whose
`processing_time_ms` is -1, which is strictly negative, so it is not the case
that every accepted response has `processing_time_ms ≥ 0`. -/
theorem C3_counterexample :
    QueryResponse.validate ⟨some "q", some "a", none, some (-1), none⟩ =
      .ok ⟨"q", "a", none, -1, none⟩ ∧ ¬ ((0 : Rat) ≤ -1) := by
  exact ⟨rfl, by norm_num⟩

/-- C3 (amended): `QueryResponse` validation requires `processing_time_ms` to
be present but places no range constraint on it — every rational value,
negative ones included, is accepted and passed through unchanged — while a
missing `processing_time_ms` is rejected. -/
theorem C3_processing_time_unconstrained (t : Rat) :
    QueryResponse.validate ⟨some "q", some "a", none, some t, none⟩ =
      .ok ⟨"q", "a", none, t, none⟩ ∧
    QueryResponse.validate ⟨some "q", some "a", none, none, none⟩ =
      .error ["processing_time_ms: field required"] := by
  exact ⟨rfl, rfl⟩

/-- C7: a readiness response validates if and only if all three fields —
`status`, the Qdrant connectivity flag and `collection_info` — are present;
an accepted response carries exactly the supplied values. -/
theorem C7_readiness_requires_connectivity (inp : ReadinessInput) :
    (isAccepted (ReadinessResponse.validate inp) = true ↔
      (inp.status.isSome ∧ inp.qdrant_connected.isSome ∧ inp.collection_info.isSome)) ∧
    (∀ r, ReadinessResponse.validate inp = .ok r →
      inp.status = some r.status ∧ inp.qdrant_connected = some r.qdrant_connected ∧
        inp.collection_info = some r.collection_info) := by
  obtain ⟨s, q, c⟩ := inp
  cases s <;> cases q <;> cases c <;>
    simp [ReadinessResponse.validate, isAccepted]

/-- C7 witness: a fully populated readiness input is accepted. -/
theorem C7_readiness_requires_connectivity_witness :
    isAccepted (ReadinessResponse.validate ⟨some "ready", some true, some []⟩) = true :=
  (C7_readiness_requires_connectivity ⟨some "ready", some true, some []⟩).1.mpr
    (by simp)

/-- C8: absence of an optional value is represented by `none`, never by a
sentinel: an `EvaluationScores` input with every optional numeric field absent
is accepted with all numeric fields `none`; a `QueryResponse` input omitting
`sources` and `evaluation` is accepted with both `none`; and accepted
`EvaluationScores` values are passed through unchanged, with no re-encoding of
absence. -/
theorem C8_optional_fields_default_none :
    (∀ e : Option String,
      EvaluationScores.validate ⟨none, none, none, e⟩ = .ok ⟨none, none, none, e⟩) ∧
    (∀ (q a : String) (t : Rat),
      QueryResponse.validate ⟨some q, some a, none, some t, none⟩ =
        .ok ⟨q, a, none, t, none⟩) ∧
    (∀ inp r, EvaluationScores.validate inp = .ok r →
      r.faithfulness = inp.faithfulness ∧ r.answer_relevancy = inp.answer_relevancy ∧
        r.evaluation_time_ms = inp.evaluation_time_ms ∧ r.error = inp.error) := by
  refine ⟨fun e => rfl, fun q a t => rfl, fun inp r hr => ?_⟩
  rw [EvaluationScores.validate_ok_eq inp r hr]
  exact ⟨rfl, rfl, rfl, rfl⟩

/-- C8 witness: applied at a concrete accepted input, discharging the
hypothesis of the pass-through conjunct. -/
theorem C8_optional_fields_default_none_witness :
    (⟨none, none, none, some "msg"⟩ : EvaluationScores).faithfulness =
      (⟨none, none, none, some "msg"⟩ : EvaluationScoresInput).faithfulness :=
  (C8_optional_fields_default_none.2.2 ⟨none, none, none, some "msg"⟩
    ⟨none, none, none, some "msg"⟩
    (C8_optional_fields_default_none.1 (some "msg"))).1

/-- A concrete pipeline environment used by the witnesses: a healthy but empty
index, a generator returning a fixed answer, and an evaluator that always
fails internally. -/
def envW : PipelineEnv :=
  ⟨4, fun _ _ => .ok [], fun _ _ => .ok "no relevant context found",
   fun _ _ _ => .error "ragas unavailable", 1, 2, 3⟩

/-- C4: when evaluation is enabled and the evaluator fails internally, the
query still succeeds, and the result carries an `EvaluationScores` value with
`faithfulness = none`, `answer_relevancy = none` and a populated `error`
message; that value is itself accepted by the schema validation, all of its
fields being optional. -/
theorem C4_evaluation_failure_degrades (env : PipelineEnv) (q : QueryRequest)
    (ps : List SourceDocument) (ans msg : String)
    (hq : q.enable_evaluation = true)
    (hr : env.retrieve q.question env.k = .ok ps)
    (hg : env.generate q.question ps = .ok ans)
    (he : env.evaluate q.question ans ps = .error msg) :
    QueryPipeline.answer env q = .ok
      ⟨q.question, ans, if q.include_sources then some ps else none,
       env.retrieval_ms + env.generation_ms + env.evaluation_ms,
       some ⟨none, none, none, some msg⟩⟩ ∧
    EvaluationScores.validate ⟨none, none, none, some msg⟩ =
      .ok ⟨none, none, none, some msg⟩ := by
  refine ⟨?_, rfl⟩
  unfold QueryPipeline.answer
  rw [hr]
  dsimp only
  rw [hg]
  dsimp only
  rw [hq, he]
  simp

/-- C4 witness: a failing evaluator in the concrete environment degrades into
null scores plus an error message, and the query succeeds. -/
theorem C4_evaluation_failure_degrades_witness :
    QueryPipeline.answer envW ⟨"q", true, true⟩ = .ok
      ⟨"q", "no relevant context found", some [],
       envW.retrieval_ms + envW.generation_ms + envW.evaluation_ms,
       some ⟨none, none, none, some "ragas unavailable"⟩⟩ ∧
    EvaluationScores.validate ⟨none, none, none, some "ragas unavailable"⟩ =
      .ok ⟨none, none, none, some "ragas unavailable"⟩ :=
  C4_evaluation_failure_degrades envW ⟨"q", true, true⟩ []
    "no relevant context found" "ragas unavailable" rfl rfl rfl rfl

/-- C5: for every valid question, the pipeline either returns a result — whose
`answer` field is a string, present by construction — or fails with exactly
one of `RetrievalFailed` or `GenerationFailed`; moreover a validated
`QueryResponse` always carries the answer supplied in the input, so no
accepted response lacks an answer. -/
theorem C5_answer_totality (env : PipelineEnv) (q : QueryRequest)
    (hlen : 1 ≤ q.question.length ∧ q.question.length ≤ 1000) :
    ((∃ r, QueryPipeline.answer env q = .ok r) ∨
     (∃ m, QueryPipeline.answer env q = .error (.RetrievalFailed m)) ∨
     (∃ m, QueryPipeline.answer env q = .error (.GenerationFailed m))) ∧
    (∀ inp r, QueryResponse.validate inp = .ok r → inp.answer = some r.answer) := by
  constructor
  · unfold QueryPipeline.answer
    cases hr : env.retrieve q.question env.k with
    | error e => exact .inr (.inl ⟨e.message, rfl⟩)
    | ok ps =>
      dsimp only
      cases hg : env.generate q.question ps with
      | error m => exact .inr (.inr ⟨m, rfl⟩)
      | ok ans => exact .inl ⟨_, rfl⟩
  · intro inp r h
    exact (QueryResponse.validate_ok_shape inp r h).2.1

/-- C5 witness: applied in the concrete environment at a valid one-character
question, and at a concrete validated response. -/
theorem C5_answer_totality_witness :
    (QueryResponseInput.mk (some "q") (some "a") none (some 0) none).answer =
      some (QueryResponse.mk "q" "a" none 0 none).answer :=
  (C5_answer_totality envW ⟨"q", true, false⟩ ⟨by decide, by decide⟩).2
    ⟨some "q", some "a", none, some 0, none⟩ ⟨"q", "a", none, 0, none⟩ rfl

/-- C6: in a pipeline result, `sources` is absent when `include_sources` is
false and, with a healthy index returning at most `k` passages, present with
length at most `k` when `include_sources` is true; `evaluation` is absent
whenever `enable_evaluation` is false; and in the schema both fields are
nullable and default to absent: an input omitting them validates to a response
with both `none`. -/
theorem C6_presence_flags (env : PipelineEnv) (q : QueryRequest) (r : QueryResponse)
    (h : QueryPipeline.answer env q = .ok r) :
    (q.include_sources = false → r.sources = none) ∧
    (q.enable_evaluation = false → r.evaluation = none) ∧
    (∀ ps, q.include_sources = true → env.retrieve q.question env.k = .ok ps →
      ps.length ≤ env.k → r.sources = some ps ∧ ps.length ≤ env.k) ∧
    (∀ inp r', QueryResponse.validate inp = .ok r' →
      (inp.sources = none → r'.sources = none) ∧
      (inp.evaluation = none → r'.evaluation = none)) := by
  refine ⟨?_, ?_, ?_, ?_⟩
  case _ =>
    intro hf
    unfold QueryPipeline.answer at h
    cases hr : env.retrieve q.question env.k <;> rw [hr] at h <;> dsimp only at h
    · cases h
    · cases hg : env.generate q.question _ <;> rw [hg] at h <;> dsimp only at h
      · cases h
      · cases h; simp [hf]
  case _ =>
    intro hf
    unfold QueryPipeline.answer at h
    cases hr : env.retrieve q.question env.k <;> rw [hr] at h <;> dsimp only at h
    · cases h
    · cases hg : env.generate q.question _ <;> rw [hg] at h <;> dsimp only at h
      · cases h
      · cases h; simp [hf]
  case _ =>
    intro ps ht hps hk
    unfold QueryPipeline.answer at h
    rw [hps] at h
    dsimp only at h
    cases hg : env.generate q.question ps <;> rw [hg] at h <;> dsimp only at h
    · cases h
    · cases h; simp [ht, hk]
  case _ =>
    intro inp r' h'
    have hs := QueryResponse.validate_ok_shape inp r' h'
    exact ⟨fun hn => by rw [← hs.2.2.2.1, hn], hs.2.2.2.2⟩

/-- C6 witness: with both flags off in the concrete environment, the result
has no sources and no evaluation. -/
theorem C6_presence_flags_witness :
    (QueryResponse.mk "q" "no relevant context found" none
        (envW.retrieval_ms + envW.generation_ms + 0) none).sources = none ∧
    (QueryResponse.mk "q" "no relevant context found" none
        (envW.retrieval_ms + envW.generation_ms + 0) none).evaluation = none :=
  ⟨(C6_presence_flags envW ⟨"q", false, false⟩ _ rfl).1 rfl,
   (C6_presence_flags envW ⟨"q", false, false⟩ _ rfl).2.1 rfl⟩

end RagQa
